import Mathlib

/-!
Verification of the OTP e-mail authentication backend (`src/main.py`,
`src/schemas.py`) against its natural-language specification.

The two core operations, `request_otp` (`POST /auth/request-otp`) and
`verify_otp` (`POST /auth/verify-otp`), are shallowly embedded as pure
functions over an explicit database state.  Python strings are modelled as
lists of characters; UTC timestamps are modelled as integers counting
seconds, so `timedelta(minutes=5)` is the integer `300`.  The MongoDB
handle `db` may be absent (`db is None` in the source), which we model by
passing an `Option DB`; the `HTTPException`s raised by the source become
the `Except` error results `storageUnavailable` (HTTP 500) and
`invalidOrExpired` (HTTP 400, "Invalid or expired code").
-/

set_option maxHeartbeats 1000000

namespace OtpAuth

/-- Python strings, modelled as lists of unicode characters. -/
abbrev PyStr := List Char

/-- The ASCII whitespace characters removed by Python's `str.strip()`. -/
def pyIsSpace (c : Char) : Bool :=
  c = ' ' || c = '\t' || c = '\n' || c = '\r' || c = '\x0b' || c = '\x0c'

/-- Python `str.strip()`: remove whitespace from both ends of the string. -/
def pyStrip (s : PyStr) : PyStr :=
  ((s.dropWhile pyIsSpace).reverse.dropWhile pyIsSpace).reverse

/-- Python `str.lower()` (ASCII model, matching `Char.toLower`). -/
def pyLower (s : PyStr) : PyStr := s.map Char.toLower

/-- The e-mail normalisation `payload.email.lower().strip()` performed by
both endpoints (main.py lines 87 and 125). -/
def normalizeEmail (s : PyStr) : PyStr := pyStrip (pyLower s)

/-- Python `f"{n:06d}"` for a natural number `n` (main.py line 88): the
decimal representation of `n`, left-padded with zeros to width 6. -/
def pyFormat06d (n : Nat) : PyStr :=
  let s := (Nat.repr n).data
  List.replicate (6 - s.length) '0' ++ s

/-- A document of the `"otp"` collection (schemas.py `Otp`, plus the `_id`
and the `created_at` / `updated_at` stamps used by main.py). -/
structure OtpRecord where
  id : Nat
  email : PyStr
  code : PyStr
  createdAt : Int
  expiresAt : Int
  used : Bool
  updatedAt : Option Int
deriving DecidableEq

/-- A document of the `"authuser"` collection (schemas.py `AuthUser`).
Fields not present in a particular document (e.g. `created_at` on a row
created by the upsert in `verify_otp`) are `none`. -/
structure AuthUser where
  email : PyStr
  displayName : Option PyStr
  isVerified : Bool
  lastLogin : Option Int
  createdAt : Option Int
  updatedAt : Option Int
deriving DecidableEq

/-- The database state: the two collections, plus a counter supplying
fresh `_id`s for inserted OTP documents. -/
structure DB where
  otps : List OtpRecord
  users : List AuthUser
  nextId : Nat
deriving DecidableEq

/-- The two error outcomes of the endpoints: `storageUnavailable` is the
HTTP 500 "Database not configured", `invalidOrExpired` is the HTTP 400
"Invalid or expired code". -/
inductive ApiError where
  | storageUnavailable
  | invalidOrExpired
deriving DecidableEq

/-- The JSON body returned by a successful `request_otp` call. -/
structure RequestResponse where
  message : PyStr
  dev_otp : PyStr
  expires_in_seconds : Nat
deriving DecidableEq

/-- The JSON body returned by a successful `verify_otp` call. -/
structure VerifyResponse where
  success : Bool
  token : PyStr
  email : PyStr
deriving DecidableEq

/-- Mongo `find_one({"email": e})` on the `"authuser"` collection: the
first document (in insertion order) with the given e-mail, if any. -/
def findUser (users : List AuthUser) (e : PyStr) : Option AuthUser :=
  users.find? (fun u => u.email == e)

/-- Modelled from the spec: `create_document("otp", doc)` comes from
`database.py`, which is not among the sources; per spec §3 an `OtpRecord`
carries a `createdAt` stamp with `expiresAt = createdAt + 5 minutes`, so
the insert is modelled as appending the document with a fresh `_id` and
`createdAt := now`. -/
def create_otp_document (db : DB) (e code : PyStr) (expiresAt now : Int) : DB :=
  { db with
    otps := db.otps ++
      [{ id := db.nextId, email := e, code := code, createdAt := now,
         expiresAt := expiresAt, used := false, updatedAt := none }]
    nextId := db.nextId + 1 }

/-- `timedelta(minutes=5)` in seconds. -/
def fiveMinutes : Int := 300

/-- `POST /auth/request-otp` (main.py lines 82-117).  The value drawn by
`random.randint(0, 999999)` is passed in as the parameter `rand`; the
current UTC time is the parameter `now`. -/
def request_otp (st : Option DB) (email : PyStr) (rand : Nat) (now : Int) :
    Option DB × Except ApiError RequestResponse :=
  match st with
  | none => (none, Except.error ApiError.storageUnavailable)
  | some db =>
    let e := normalizeEmail email
    let code := pyFormat06d rand
    let expires_at := now + fiveMinutes
    let db1 := create_otp_document db e code expires_at now
    let db2 :=
      match findUser db1.users e with
      | some _ => db1
      | none =>
        { db1 with
          users := db1.users ++
            [{ email := e, displayName := none, isVerified := false,
               lastLogin := none, createdAt := some now, updatedAt := some now }] }
    (some db2,
     Except.ok { message := "OTP sent to your email".data, dev_otp := code,
                 expires_in_seconds := 300 })

/-- The match predicate of the `find_one` query in `verify_otp`
(main.py lines 130-136): same e-mail, exact code, unused, and
`expires_at: {"$gte": now}`. -/
def otpMatches (e code : PyStr) (now : Int) (r : OtpRecord) : Bool :=
  r.email == e && r.code == code && r.used == false && decide (now ≤ r.expiresAt)

/-- `find_one` with `sort=[("created_at", -1)]`: the matching document
with the newest `created_at` (main.py lines 130-138). -/
def selectNewest : List OtpRecord → Option OtpRecord
  | [] => none
  | r :: rest =>
    match selectNewest rest with
    | none => some r
    | some b => if r.createdAt < b.createdAt then some b else some r

/-- The whole OTP lookup of `verify_otp`: filter by `otpMatches`, take the
most recently created match. -/
def findActiveOtp (db : DB) (e code : PyStr) (now : Int) : Option OtpRecord :=
  selectNewest (db.otps.filter (otpMatches e code now))

/-- `db["otp"].update_one({"_id": ...}, {"$set": {"used": True, "updated_at": now}})`
(main.py line 144). -/
def markOtpUsed (db : DB) (i : Nat) (now : Int) : DB :=
  { db with
    otps := db.otps.map (fun r =>
      if r.id = i then { r with used := true, updatedAt := some now } else r) }

/-- Mongo `update_one` `$set` on the first `"authuser"` document matching
the e-mail; `none` when no document matches. -/
def updateFirstUser : List AuthUser → PyStr → Int → Option (List AuthUser)
  | [], _, _ => none
  | u :: rest, e, now =>
    if u.email = e then
      some ({ u with
                isVerified := true
                lastLogin := some now
                updatedAt := some now } :: rest)
    else
      (updateFirstUser rest e now).map (u :: ·)

/-- `db["authuser"].update_one({"email": e}, {"$set": ...}, upsert=True)`
(main.py lines 147-151): update the first matching document, or insert a
fresh document built from the query plus the `$set` fields. -/
def upsertUserVerified (db : DB) (e : PyStr) (now : Int) : DB :=
  match updateFirstUser db.users e now with
  | some users' => { db with users := users' }
  | none =>
    { db with
      users := db.users ++
        [{ email := e, displayName := none, isVerified := true,
           lastLogin := some now, createdAt := none, updatedAt := some now }] }

/-- `POST /auth/verify-otp` (main.py lines 120-156).  The current UTC time
is the parameter `now`.  On failure the returned state equals the input
state (the source raises before any write). -/
def verify_otp (st : Option DB) (email code : PyStr) (now : Int) :
    Option DB × Except ApiError VerifyResponse :=
  match st with
  | none => (none, Except.error ApiError.storageUnavailable)
  | some db =>
    let e := normalizeEmail email
    let c := pyStrip code
    match findActiveOtp db e c now with
    | none => (some db, Except.error ApiError.invalidOrExpired)
    | some otp =>
      let db1 := markOtpUsed db otp.id now
      let db2 := upsertUserVerified db1 e now
      (some db2,
       Except.ok { success := true, token := "demo-token-".data ++ e, email := e })

/-- A single API call, with its nondeterministic inputs (random draw,
clock reading) made explicit. -/
inductive Op where
  | request (email : PyStr) (rand : Nat) (now : Int)
  | verify (email code : PyStr) (now : Int)
deriving DecidableEq

/-- The state transition of one API call (a failed call leaves the state
unchanged). -/
def step (db : DB) : Op → DB
  | Op.request e r t =>
    match (request_otp (some db) e r t).1 with
    | some db' => db'
    | none => db
  | Op.verify e c t =>
    match (verify_otp (some db) e c t).1 with
    | some db' => db'
    | none => db

/-- Running a sequence of API calls from a database state. -/
def run (db : DB) (ops : List Op) : DB := ops.foldl step db

/-! Concrete states used to exercise the theorems on explicit inputs. -/

/-- The empty database. -/
def emptyDB : DB := { otps := [], users := [], nextId := 0 }

/-- A database holding one fresh OTP for `a@b.com` with code `123456`,
created at time 0 (so `expiresAt = 300`). -/
def dbOne : DB :=
  { otps := [{ id := 0, email := "a@b.com".data, code := "123456".data,
               createdAt := 0, expiresAt := 300, used := false, updatedAt := none }]
    users := [{ email := "a@b.com".data, displayName := none, isVerified := false,
                lastLogin := none, createdAt := some 0, updatedAt := some 0 }]
    nextId := 1 }

/-- The state `dbOne` after its single OTP is successfully verified at
time 10. -/
def dbOneUsed : DB :=
  { otps := [{ id := 0, email := "a@b.com".data, code := "123456".data,
               createdAt := 0, expiresAt := 300, used := true, updatedAt := some 10 }]
    users := [{ email := "a@b.com".data, displayName := none, isVerified := true,
                lastLogin := some 10, createdAt := some 0, updatedAt := some 10 }]
    nextId := 1 }

/-- The response of a successful verification for `a@b.com`. -/
def respA : VerifyResponse :=
  { success := true, token := "demo-token-a@b.com".data, email := "a@b.com".data }

/-- A database holding two unused, unexpired OTPs for `a@b.com` with the
SAME code `123456` (a random-draw collision between two requests). -/
def dbDup : DB :=
  { otps := [{ id := 0, email := "a@b.com".data, code := "123456".data,
               createdAt := 0, expiresAt := 300, used := false, updatedAt := none },
             { id := 1, email := "a@b.com".data, code := "123456".data,
               createdAt := 10, expiresAt := 310, used := false, updatedAt := none }]
    users := [{ email := "a@b.com".data, displayName := none, isVerified := false,
                lastLogin := none, createdAt := some 0, updatedAt := some 0 }]
    nextId := 2 }

/-- A database holding two unused, unexpired OTPs for `a@b.com` with
DIFFERENT codes: an older `111111` and a newer `222222`. -/
def dbTwo : DB :=
  { otps := [{ id := 0, email := "a@b.com".data, code := "111111".data,
               createdAt := 0, expiresAt := 300, used := false, updatedAt := none },
             { id := 1, email := "a@b.com".data, code := "222222".data,
               createdAt := 10, expiresAt := 310, used := false, updatedAt := none }]
    users := [{ email := "a@b.com".data, displayName := none, isVerified := false,
                lastLogin := none, createdAt := some 0, updatedAt := some 0 }]
    nextId := 2 }

/-- The state `dbTwo` after the newer OTP (`222222`) is successfully
verified at time 20: the older OTP (`111111`) is untouched. -/
def dbTwoUsed : DB :=
  { otps := [{ id := 0, email := "a@b.com".data, code := "111111".data,
               createdAt := 0, expiresAt := 300, used := false, updatedAt := none },
             { id := 1, email := "a@b.com".data, code := "222222".data,
               createdAt := 10, expiresAt := 310, used := true, updatedAt := some 20 }]
    users := [{ email := "a@b.com".data, displayName := none, isVerified := true,
                lastLogin := some 20, createdAt := some 0, updatedAt := some 20 }]
    nextId := 2 }

end OtpAuth

deriving instance DecidableEq for Except

namespace OtpAuth

/-! ### Auxiliary lemmas about the string primitives -/

theorem toLower_toNat_of_upper (c : Char) (h1 : 65 ≤ c.toNat) (h2 : c.toNat ≤ 90) :
    c.toLower.toNat = c.toNat + 32 := by
  have key : ∀ m : Nat, m < 91 → 65 ≤ m → (Char.ofNat (m + 32)).toNat = m + 32 := by decide
  unfold Char.toLower
  rw [if_pos ⟨h1, h2⟩]
  exact key c.toNat (by omega) h1

theorem toLower_eq_self (c : Char) (h : ¬(65 ≤ c.toNat ∧ c.toNat ≤ 90)) :
    c.toLower = c := by
  unfold Char.toLower
  rw [if_neg h]

theorem toLower_idem (c : Char) : c.toLower.toLower = c.toLower := by
  by_cases h : 65 ≤ c.toNat ∧ c.toNat ≤ 90
  · have ht := toLower_toNat_of_upper c h.1 h.2
    exact toLower_eq_self _ (by omega)
  · rw [toLower_eq_self c h, toLower_eq_self c h]

theorem pyIsSpace_lt (c : Char) (h : pyIsSpace c = true) : c.toNat < 33 := by
  unfold pyIsSpace at h
  simp only [Bool.or_eq_true, decide_eq_true_eq] at h
  rcases h with ((((h | h) | h) | h) | h) | h <;> subst h <;> decide

theorem pyIsSpace_toLower (c : Char) : pyIsSpace c.toLower = pyIsSpace c := by
  by_cases h : 65 ≤ c.toNat ∧ c.toNat ≤ 90
  · have ht := toLower_toNat_of_upper c h.1 h.2
    have h1 : pyIsSpace c = false := by
      cases hs : pyIsSpace c
      · rfl
      · exact absurd (pyIsSpace_lt c hs) (by omega)
    have h2 : pyIsSpace c.toLower = false := by
      cases hs : pyIsSpace c.toLower
      · rfl
      · exact absurd (pyIsSpace_lt _ hs) (by omega)
    rw [h1, h2]
  · rw [toLower_eq_self c h]

theorem pyLower_idem (s : PyStr) : pyLower (pyLower s) = pyLower s := by
  unfold pyLower
  rw [List.map_map]
  exact List.map_congr_left (fun a _ => toLower_idem a)

theorem dropWhile_map_toLower (l : PyStr) :
    (l.map Char.toLower).dropWhile pyIsSpace = (l.dropWhile pyIsSpace).map Char.toLower := by
  induction l with
  | nil => rfl
  | cons a t ih =>
    simp only [List.map_cons, List.dropWhile_cons, pyIsSpace_toLower]
    cases h : pyIsSpace a
    · simp
    · simpa using ih

theorem pyLower_pyStrip (s : PyStr) : pyLower (pyStrip s) = pyStrip (pyLower s) := by
  unfold pyStrip pyLower
  rw [dropWhile_map_toLower, ← List.map_reverse, dropWhile_map_toLower, ← List.map_reverse]

theorem pyStrip_eq_rdropWhile (s : PyStr) :
    pyStrip s = List.rdropWhile pyIsSpace (s.dropWhile pyIsSpace) := rfl

theorem pyStrip_idem (s : PyStr) : pyStrip (pyStrip s) = pyStrip s := by
  rw [pyStrip_eq_rdropWhile, pyStrip_eq_rdropWhile]
  have h1 : (List.rdropWhile pyIsSpace (s.dropWhile pyIsSpace)).dropWhile pyIsSpace
      = List.rdropWhile pyIsSpace (s.dropWhile pyIsSpace) := by
    rw [List.dropWhile_eq_self_iff]
    intro hl
    obtain ⟨t, ht⟩ := List.rdropWhile_prefix pyIsSpace (s.dropWhile pyIsSpace)
    have hlen : 0 < (s.dropWhile pyIsSpace).length := by
      rw [← ht, List.length_append]
      omega
    have hq : (List.rdropWhile pyIsSpace (s.dropWhile pyIsSpace))[0]?
        = (s.dropWhile pyIsSpace)[0]? := by
      conv_rhs => rw [← ht]
      exact (List.getElem?_append_left hl).symm
    rw [List.getElem?_eq_getElem hl, List.getElem?_eq_getElem hlen, Option.some_inj] at hq
    have hget : (List.rdropWhile pyIsSpace (s.dropWhile pyIsSpace)).get ⟨0, hl⟩
        = (s.dropWhile pyIsSpace).get ⟨0, hlen⟩ := by
      simpa using hq
    rw [hget]
    exact List.dropWhile_get_zero_not pyIsSpace s hlen
  rw [h1, List.rdropWhile_idempotent]

theorem normalizeEmail_idem (s : PyStr) :
    normalizeEmail (normalizeEmail s) = normalizeEmail s := by
  unfold normalizeEmail
  rw [pyLower_pyStrip, pyLower_idem, pyStrip_idem]

/-! ### Auxiliary lemmas about the decimal formatting -/

theorem digitChar_isDigit : ∀ m : Nat, m < 10 → (Nat.digitChar m).isDigit = true := by decide

theorem toDigitsCore_digits :
    ∀ (f n : Nat) (l : List Char), (∀ c ∈ l, c.isDigit = true) →
      ∀ c ∈ Nat.toDigitsCore 10 f n l, c.isDigit = true := by
  intro f
  induction f with
  | zero => intro n l hl c hc; exact hl c hc
  | succ f ih =>
    intro n l hl c hc
    have hd : (Nat.digitChar (n % 10)).isDigit = true :=
      digitChar_isDigit _ (Nat.mod_lt _ (by decide))
    have hcons : ∀ x ∈ Nat.digitChar (n % 10) :: l, x.isDigit = true := by
      intro x hx
      rcases List.mem_cons.mp hx with rfl | hx'
      · exact hd
      · exact hl x hx'
    simp only [Nat.toDigitsCore] at hc
    by_cases h : n / 10 = 0
    · rw [if_pos h] at hc
      exact hcons c hc
    · rw [if_neg h] at hc
      exact ih (n / 10) (Nat.digitChar (n % 10) :: l) hcons c hc

theorem repr_data_digits (n : Nat) : ∀ c ∈ (Nat.repr n).data, c.isDigit = true := by
  intro c hc
  have hdata : (Nat.repr n).data = Nat.toDigits 10 n := rfl
  rw [hdata] at hc
  exact toDigitsCore_digits (n + 1) n [] (by intro x hx; cases hx) c hc

theorem repr_data_length_le (n : Nat) (h : n ≤ 999999) : (Nat.repr n).data.length ≤ 6 := by
  have := Nat.repr_length n 6 (by decide) (by omega)
  exact this

theorem pyFormat06d_length (n : Nat) (h : n ≤ 999999) : (pyFormat06d n).length = 6 := by
  unfold pyFormat06d
  have hle := repr_data_length_le n h
  simp only [List.length_append, List.length_replicate]
  omega

theorem pyFormat06d_digits (n : Nat) : ∀ c ∈ pyFormat06d n, c.isDigit = true := by
  intro c hc
  unfold pyFormat06d at hc
  rcases List.mem_append.mp hc with hc' | hc'
  · have := List.eq_of_mem_replicate hc'
    subst this
    decide
  · exact repr_data_digits n c hc'

/-! ### Auxiliary lemmas about `selectNewest` and the database operations -/

theorem selectNewest_nil : selectNewest [] = none := rfl

theorem selectNewest_eq_none {l : List OtpRecord} : selectNewest l = none ↔ l = [] := by
  cases l with
  | nil => simp [selectNewest]
  | cons r rest =>
    cases hs : selectNewest rest with
    | none =>
      have hred : selectNewest (r :: rest) = some r := by
        simp [selectNewest, hs]
      simp [hred]
    | some b =>
      have hred : selectNewest (r :: rest)
          = if r.createdAt < b.createdAt then some b else some r := by
        simp [selectNewest, hs]
      rw [hred]
      constructor
      · intro h
        by_cases hlt : r.createdAt < b.createdAt
        · rw [if_pos hlt] at h
          cases h
        · rw [if_neg hlt] at h
          cases h
      · intro h
        cases h

theorem selectNewest_spec {l : List OtpRecord} :
    ∀ {r : OtpRecord}, selectNewest l = some r →
      r ∈ l ∧ ∀ x ∈ l, x.createdAt ≤ r.createdAt := by
  induction l with
  | nil => intro r h; cases h
  | cons a t ih =>
    intro r h
    simp only [selectNewest] at h
    split at h
    · rename_i heq
      cases h
      have ht : t = [] := selectNewest_eq_none.mp heq
      subst ht
      refine ⟨List.mem_singleton_self _, ?_⟩
      intro x hx
      rcases List.mem_singleton.mp hx with rfl
      exact le_refl _
    · rename_i b heq
      obtain ⟨hbmem, hbmax⟩ := ih heq
      by_cases hlt : a.createdAt < b.createdAt
      · rw [if_pos hlt] at h
        cases h
        refine ⟨List.mem_cons_of_mem a hbmem, ?_⟩
        intro x hx
        rcases List.mem_cons.mp hx with rfl | hx'
        · exact le_of_lt hlt
        · exact hbmax x hx'
      · rw [if_neg hlt] at h
        cases h
        refine ⟨List.mem_cons_self a t, ?_⟩
        intro x hx
        rcases List.mem_cons.mp hx with rfl | hx'
        · exact le_refl _
        · exact le_trans (hbmax x hx') (not_lt.mp hlt)

theorem findActiveOtp_spec {db : DB} {e c : PyStr} {now : Int} {r : OtpRecord}
    (h : findActiveOtp db e c now = some r) :
    r ∈ db.otps ∧ otpMatches e c now r = true ∧
      ∀ x ∈ db.otps, otpMatches e c now x = true → x.createdAt ≤ r.createdAt := by
  unfold findActiveOtp at h
  obtain ⟨hmem, hmax⟩ := selectNewest_spec h
  refine ⟨(List.mem_filter.mp hmem).1, (List.mem_filter.mp hmem).2, ?_⟩
  intro x hx hmx
  exact hmax x (List.mem_filter.mpr ⟨hx, hmx⟩)

theorem findActiveOtp_eq_none {db : DB} {e c : PyStr} {now : Int} :
    findActiveOtp db e c now = none ↔
      ∀ r ∈ db.otps, ¬ otpMatches e c now r = true := by
  unfold findActiveOtp
  rw [selectNewest_eq_none, List.filter_eq_nil_iff]

theorem upsertUserVerified_otps (db : DB) (e : PyStr) (now : Int) :
    (upsertUserVerified db e now).otps = db.otps := by
  unfold upsertUserVerified
  cases updateFirstUser db.users e now <;> rfl

theorem markOtpUsed_otps (db : DB) (i : Nat) (now : Int) :
    (markOtpUsed db i now).otps = db.otps.map (fun r =>
      if r.id = i then { r with used := true, updatedAt := some now } else r) := rfl

theorem updateFirstUser_mem {users : List AuthUser} {e : PyStr} {now : Int} :
    ∀ {users' : List AuthUser}, updateFirstUser users e now = some users' →
      ∃ u ∈ users', u.email = e ∧ u.isVerified = true ∧ u.lastLogin = some now := by
  induction users with
  | nil => intro users' h; cases h
  | cons u rest ih =>
    intro users' h
    simp only [updateFirstUser] at h
    by_cases he : u.email = e
    · rw [if_pos he] at h
      cases h
      exact ⟨_, List.mem_cons_self _ _, he, rfl, rfl⟩
    · rw [if_neg he] at h
      cases hrec : updateFirstUser rest e now with
      | none => rw [hrec] at h; cases h
      | some l' =>
        rw [hrec] at h
        cases h
        obtain ⟨v, hv, hv2⟩ := ih hrec
        exact ⟨v, List.mem_cons_of_mem u hv, hv2⟩

theorem upsertUserVerified_mem (db : DB) (e : PyStr) (now : Int) :
    ∃ u ∈ (upsertUserVerified db e now).users,
      u.email = e ∧ u.isVerified = true ∧ u.lastLogin = some now := by
  unfold upsertUserVerified
  cases h : updateFirstUser db.users e now with
  | none =>
    refine ⟨{ email := e, displayName := none, isVerified := true,
              lastLogin := some now, createdAt := none, updatedAt := some now },
            ?_, rfl, rfl, rfl⟩
    exact List.mem_append_right _ (List.mem_singleton_self _)
  | some users' =>
    obtain ⟨u, hu, hu2⟩ := updateFirstUser_mem h
    exact ⟨u, hu, hu2⟩

/-! ### Reduction lemmas for `verify_otp` -/

theorem verify_otp_of_none (db : DB) (email code : PyStr) (now : Int)
    (h : findActiveOtp db (normalizeEmail email) (pyStrip code) now = none) :
    verify_otp (some db) email code now
      = (some db, Except.error ApiError.invalidOrExpired) := by
  simp [verify_otp, h]

theorem verify_otp_of_some (db : DB) (email code : PyStr) (now : Int) (r : OtpRecord)
    (h : findActiveOtp db (normalizeEmail email) (pyStrip code) now = some r) :
    verify_otp (some db) email code now
      = (some (upsertUserVerified (markOtpUsed db r.id now) (normalizeEmail email) now),
         Except.ok { success := true, token := "demo-token-".data ++ normalizeEmail email,
                     email := normalizeEmail email }) := by
  simp [verify_otp, h]

theorem otpMatches_iff (e code : PyStr) (now : Int) (r : OtpRecord) :
    otpMatches e code now r = true ↔
      r.email = e ∧ r.code = code ∧ r.used = false ∧ now ≤ r.expiresAt := by
  unfold otpMatches
  simp [Bool.and_eq_true, and_assoc]

/-! ### Claim theorems -/

/-- C2 counterexample: an OTP requested at time 0 expires at time 300
(5 minutes later), and a `VerifyOTP` call at exactly `now = expiresAt =
300` — a time ≥ 5 minutes past issuance — still SUCCEEDS, because the
query uses `expires_at ≥ now`; the claim says such a call fails. -/
theorem verify_at_expiry_succeeds_cex :
    (verify_otp ((request_otp (some emptyDB) "a@b.com".data 123456 0).1)
      "a@b.com".data "123456".data 300).2.isOk = true := by decide

/-- C2 (amended): a `VerifyOTP` call fails with `InvalidOrExpired` when
every unused OtpRecord carrying the normalized email and the trimmed code
is strictly past its expiry (`expiresAt < now`, i.e. the call is made
strictly more than 5 minutes after issuance). -/
theorem verify_otp_expired_fails (db : DB) (email code : PyStr) (now : Int)
    (h : ∀ r ∈ db.otps, r.email = normalizeEmail email → r.code = pyStrip code →
      r.used = false → r.expiresAt < now) :
    (verify_otp (some db) email code now).2 = Except.error ApiError.invalidOrExpired := by
  have hnone : findActiveOtp db (normalizeEmail email) (pyStrip code) now = none := by
    rw [findActiveOtp_eq_none]
    intro r hr hmatch
    obtain ⟨h1, h2, h3, h4⟩ := (otpMatches_iff _ _ _ _).mp hmatch
    have := h r hr h1 h2 h3
    omega
  rw [verify_otp_of_none _ _ _ _ hnone]

/-- C2 witness: in the state produced by a request at time 0, verifying
at time 301 (strictly past the expiry 300) fails with `InvalidOrExpired`. -/
theorem verify_otp_expired_fails_witness :
    (verify_otp (some dbOne) "a@b.com".data "123456".data 301).2
      = Except.error ApiError.invalidOrExpired :=
  verify_otp_expired_fails dbOne "a@b.com".data "123456".data 301 (by decide)

/-- C6: after every successful `VerifyOTP` call, an AuthUser record for
the normalized email exists (created by the upsert if absent), is
verified, and its `lastLogin` is a timestamp ≥ the time of the call. -/
theorem verify_otp_verifies_user (db db' : DB) (email code : PyStr) (now : Int)
    (resp : VerifyResponse)
    (h : verify_otp (some db) email code now = (some db', Except.ok resp)) :
    ∃ u ∈ db'.users, u.email = normalizeEmail email ∧ u.isVerified = true ∧
      ∃ t : Int, u.lastLogin = some t ∧ now ≤ t := by
  cases hf : findActiveOtp db (normalizeEmail email) (pyStrip code) now with
  | none =>
    rw [verify_otp_of_none _ _ _ _ hf] at h
    simp at h
  | some r =>
    rw [verify_otp_of_some _ _ _ _ r hf] at h
    have hdb : db' = upsertUserVerified (markOtpUsed db r.id now) (normalizeEmail email) now := by
      have := congrArg Prod.fst h
      simpa using this.symm
    subst hdb
    obtain ⟨u, hu, h1, h2, h3⟩ := upsertUserVerified_mem
      (markOtpUsed db r.id now) (normalizeEmail email) now
    exact ⟨u, hu, h1, h2, now, h3, le_refl now⟩

/-- C6 witness: verifying the OTP of `dbOne` at time 10 leaves a verified
user with `lastLogin = 10`. -/
theorem verify_otp_verifies_user_witness :
    ∃ u ∈ dbOneUsed.users, u.email = normalizeEmail "a@b.com".data ∧
      u.isVerified = true ∧ ∃ t : Int, u.lastLogin = some t ∧ (10 : Int) ≤ t :=
  verify_otp_verifies_user dbOne dbOneUsed "a@b.com".data "123456".data 10 respA (by decide)

/-- C9: the token of every successful `VerifyOTP` is exactly the fixed
prefix `demo-token-` concatenated with the normalized email, and any two
successful verifications for the same normalized email return the
identical token. -/
theorem token_deterministic (st st' : Option DB) (email code : PyStr) (now : Int)
    (resp : VerifyResponse)
    (h : verify_otp st email code now = (st', Except.ok resp)) :
    resp.token = "demo-token-".data ++ normalizeEmail email ∧
    (∀ (st₂ st₂' : Option DB) (email₂ code₂ : PyStr) (now₂ : Int) (resp₂ : VerifyResponse),
      verify_otp st₂ email₂ code₂ now₂ = (st₂', Except.ok resp₂) →
      normalizeEmail email₂ = normalizeEmail email → resp₂.token = resp.token) := by
  have key : ∀ (s s' : Option DB) (em cd : PyStr) (t : Int) (rp : VerifyResponse),
      verify_otp s em cd t = (s', Except.ok rp) →
      rp.token = "demo-token-".data ++ normalizeEmail em := by
    intro s s' em cd t rp hh
    cases s with
    | none => simp [verify_otp] at hh
    | some db =>
      cases hf : findActiveOtp db (normalizeEmail em) (pyStrip cd) t with
      | none =>
        rw [verify_otp_of_none _ _ _ _ hf] at hh
        simp at hh
      | some r =>
        rw [verify_otp_of_some _ _ _ _ r hf] at hh
        have := congrArg Prod.snd hh
        simp only at this
        cases this
        rfl
  refine ⟨key st st' email code now resp h, ?_⟩
  intro st₂ st₂' email₂ code₂ now₂ resp₂ h₂ hee
  rw [key st₂ st₂' email₂ code₂ now₂ resp₂ h₂, hee,
    key st st' email code now resp h]

/-- C9 witness: the concrete successful verification on `dbOne` returns
the token `demo-token-a@b.com`. -/
theorem token_deterministic_witness :
    respA.token = "demo-token-".data ++ normalizeEmail "a@b.com".data :=
  (token_deterministic (some dbOne) (some dbOneUsed) "a@b.com".data "123456".data
    10 respA (by decide)).1

/-- C10: whenever `VerifyOTP` fails — with HTTP 500 because storage is
unconfigured or with `InvalidOrExpired` because no record matches — it
performs no writes: the resulting state equals the input state. -/
theorem verify_otp_no_writes_on_failure (st : Option DB) (email code : PyStr)
    (now : Int) (err : ApiError)
    (h : (verify_otp st email code now).2 = Except.error err) :
    (verify_otp st email code now).1 = st := by
  cases st with
  | none => rfl
  | some db =>
    cases hf : findActiveOtp db (normalizeEmail email) (pyStrip code) now with
    | none => rw [verify_otp_of_none _ _ _ _ hf]
    | some r =>
      rw [verify_otp_of_some _ _ _ _ r hf] at h
      simp at h

/-- C10 witness: a failing verification (wrong code) on `dbOne` leaves
the state untouched. -/
theorem verify_otp_no_writes_on_failure_witness :
    (verify_otp (some dbOne) "a@b.com".data "999999".data 10).1 = some dbOne :=
  verify_otp_no_writes_on_failure (some dbOne) "a@b.com".data "999999".data 10
    ApiError.invalidOrExpired (by decide)

/-- C1 counterexample: in `dbDup` two unused, unexpired records share the
email `a@b.com` and the code `123456` (a random collision between two
requests).  Both the first and the second `VerifyOTP` call with that email
and code succeed — the second does not fail with `InvalidOrExpired` as the
claim states, because only the newest matching record was marked used. -/
theorem verify_otp_second_call_succeeds_cex :
    (verify_otp (some dbDup) "a@b.com".data "123456".data 20).2.isOk = true ∧
    (verify_otp ((verify_otp (some dbDup) "a@b.com".data "123456".data 20).1)
      "a@b.com".data "123456".data 25).2.isOk = true := by decide

/-- C1 (amended): when the matched record is the UNIQUE record matching
the normalized email, trimmed code, `used = false` and `expiresAt ≥ now`,
a first `VerifyOTP` call succeeds, and a second call with the same email
and code at any time `now₂ ≥ now₁` (with no intervening `RequestOTP`)
fails with `InvalidOrExpired`: the first call set `used := true` and the
match query requires `used = false`. -/
theorem verify_otp_single_use (db : DB) (email code : PyStr) (now₁ now₂ : Int)
    (r : OtpRecord)
    (hfilter : db.otps.filter (otpMatches (normalizeEmail email) (pyStrip code) now₁) = [r])
    (hle : now₁ ≤ now₂) :
    ∃ db₁ resp,
      verify_otp (some db) email code now₁ = (some db₁, Except.ok resp) ∧
      (verify_otp (some db₁) email code now₂).2 = Except.error ApiError.invalidOrExpired := by
  have hfind : findActiveOtp db (normalizeEmail email) (pyStrip code) now₁ = some r := by
    unfold findActiveOtp
    rw [hfilter]
    rfl
  refine ⟨_, _, verify_otp_of_some _ _ _ _ r hfind, ?_⟩
  have hotps : (upsertUserVerified (markOtpUsed db r.id now₁) (normalizeEmail email) now₁).otps
      = db.otps.map (fun x =>
          if x.id = r.id then { x with used := true, updatedAt := some now₁ } else x) := by
    rw [upsertUserVerified_otps, markOtpUsed_otps]
  have hnone : findActiveOtp
      (upsertUserVerified (markOtpUsed db r.id now₁) (normalizeEmail email) now₁)
      (normalizeEmail email) (pyStrip code) now₂ = none := by
    rw [findActiveOtp_eq_none]
    intro x hx hmatch
    rw [hotps] at hx
    obtain ⟨y, hy, rfl⟩ := List.mem_map.mp hx
    by_cases hid : y.id = r.id
    · rw [if_pos hid] at hmatch
      obtain ⟨-, -, hused, -⟩ := (otpMatches_iff _ _ _ _).mp hmatch
      cases hused
    · rw [if_neg hid] at hmatch
      obtain ⟨h1, h2, h3, h4⟩ := (otpMatches_iff _ _ _ _).mp hmatch
      have hy1 : otpMatches (normalizeEmail email) (pyStrip code) now₁ y = true :=
        (otpMatches_iff _ _ _ _).mpr ⟨h1, h2, h3, by omega⟩
      have hmem : y ∈ db.otps.filter (otpMatches (normalizeEmail email) (pyStrip code) now₁) :=
        List.mem_filter.mpr ⟨hy, hy1⟩
      rw [hfilter] at hmem
      exact hid (congrArg OtpRecord.id (List.mem_singleton.mp hmem))
  rw [verify_otp_of_none _ _ _ _ hnone]

/-- C1 witness: on `dbOne` (a single matching record), verification at
time 10 succeeds and re-verification at time 20 fails. -/
theorem verify_otp_single_use_witness :
    ∃ db₁ resp,
      verify_otp (some dbOne) "a@b.com".data "123456".data 10 = (some db₁, Except.ok resp) ∧
      (verify_otp (some db₁) "a@b.com".data "123456".data 20).2
        = Except.error ApiError.invalidOrExpired :=
  verify_otp_single_use dbOne "a@b.com".data "123456".data 10 20
    { id := 0, email := "a@b.com".data, code := "123456".data,
      createdAt := 0, expiresAt := 300, used := false, updatedAt := none }
    (by decide) (by decide)

/-- C3: whenever `VerifyOTP` succeeds, the record it selected is a
matching record of the pre-state whose `createdAt` is maximal among all
matching records, and exactly that record is marked `used = true`
(with `updatedAt` stamped) in the post-state. -/
theorem verify_otp_selects_newest (db db' : DB) (email code : PyStr) (now : Int)
    (resp : VerifyResponse)
    (h : verify_otp (some db) email code now = (some db', Except.ok resp)) :
    ∃ r ∈ db.otps,
      otpMatches (normalizeEmail email) (pyStrip code) now r = true ∧
      (∀ x ∈ db.otps, otpMatches (normalizeEmail email) (pyStrip code) now x = true →
        x.createdAt ≤ r.createdAt) ∧
      { r with used := true, updatedAt := some now } ∈ db'.otps := by
  cases hf : findActiveOtp db (normalizeEmail email) (pyStrip code) now with
  | none =>
    rw [verify_otp_of_none _ _ _ _ hf] at h
    simp at h
  | some r =>
    rw [verify_otp_of_some _ _ _ _ r hf] at h
    have hdb : db' = upsertUserVerified (markOtpUsed db r.id now) (normalizeEmail email) now := by
      have := congrArg Prod.fst h
      simpa using this.symm
    subst hdb
    obtain ⟨hmem, hmatch, hmax⟩ := findActiveOtp_spec hf
    refine ⟨r, hmem, hmatch, hmax, ?_⟩
    rw [upsertUserVerified_otps, markOtpUsed_otps]
    have : ({ r with used := true, updatedAt := some now } : OtpRecord)
        = (fun x => if x.id = r.id then { x with used := true, updatedAt := some now } else x) r := by
      simp
    rw [this]
    exact List.mem_map_of_mem _ hmem

/-- C3 witness: on `dbDup` (two matching records, created at 0 and 10),
the successful verification at time 20 selects and marks the record
created at time 10. -/
theorem verify_otp_selects_newest_witness :
    ∃ r ∈ dbDup.otps,
      otpMatches (normalizeEmail "a@b.com".data) (pyStrip "123456".data) 20 r = true ∧
      (∀ x ∈ dbDup.otps,
        otpMatches (normalizeEmail "a@b.com".data) (pyStrip "123456".data) 20 x = true →
        x.createdAt ≤ r.createdAt) ∧
      { r with used := true, updatedAt := some (20 : Int) } ∈
        ({ otps := [{ id := 0, email := "a@b.com".data, code := "123456".data,
                      createdAt := 0, expiresAt := 300, used := false, updatedAt := none },
                    { id := 1, email := "a@b.com".data, code := "123456".data,
                      createdAt := 10, expiresAt := 310, used := true, updatedAt := some 20 }]
           users := [{ email := "a@b.com".data, displayName := none, isVerified := true,
                       lastLogin := some 20, createdAt := some 0, updatedAt := some 20 }]
           nextId := 2 } : DB).otps :=
  verify_otp_selects_newest dbDup _ "a@b.com".data "123456".data 20 respA (by decide)

/-- C4 counterexample: in `dbTwo`, after the newer code `222222` is
requested and successfully used at time 20, a `VerifyOTP` call with the
older, still-unexpired, unused code `111111` at time 30 SUCCEEDS — it
does not fail with `InvalidOrExpired` as the claim states, because the
query matches on the exact code and the older record is still unused. -/
theorem older_code_succeeds_cex :
    (verify_otp (some dbTwo) "a@b.com".data "222222".data 20).2.isOk = true ∧
    (verify_otp ((verify_otp (some dbTwo) "a@b.com".data "222222".data 20).1)
      "a@b.com".data "111111".data 30).2.isOk = true := by decide

/-- C4 (amended): after a newer code for the same email has been
successfully used, an older still-unexpired, unused code with a different
trimmed value REMAINS USABLE: a subsequent `VerifyOTP` call with the
older code succeeds (assuming, as `request_otp` guarantees, that record
ids are distinct). -/
theorem older_code_still_usable (db : DB) (email oldCode newCode : PyStr)
    (now₁ now₂ : Int) (db₁ : DB) (resp : VerifyResponse) (r : OtpRecord)
    (hnodup : (db.otps.map OtpRecord.id).Nodup)
    (hneq : pyStrip oldCode ≠ pyStrip newCode)
    (h1 : verify_otp (some db) email newCode now₁ = (some db₁, Except.ok resp))
    (hr : r ∈ db.otps)
    (hrm : otpMatches (normalizeEmail email) (pyStrip oldCode) now₂ r = true) :
    ∃ db₂ resp₂, verify_otp (some db₁) email oldCode now₂ = (some db₂, Except.ok resp₂) := by
  cases hf : findActiveOtp db (normalizeEmail email) (pyStrip newCode) now₁ with
  | none =>
    rw [verify_otp_of_none _ _ _ _ hf] at h1
    simp at h1
  | some rn =>
    rw [verify_otp_of_some _ _ _ _ rn hf] at h1
    have hdb : db₁ = upsertUserVerified (markOtpUsed db rn.id now₁) (normalizeEmail email) now₁ := by
      have := congrArg Prod.fst h1
      simpa using this.symm
    subst hdb
    obtain ⟨hnmem, hnmatch, -⟩ := findActiveOtp_spec hf
    have hrcode : r.code = pyStrip oldCode := ((otpMatches_iff _ _ _ _).mp hrm).2.1
    have hncode : rn.code = pyStrip newCode := ((otpMatches_iff _ _ _ _).mp hnmatch).2.1
    have hne : r ≠ rn := fun hEq => hneq (by rw [← hrcode, hEq, hncode])
    have hid : r.id ≠ rn.id := fun hEq =>
      hne (List.inj_on_of_nodup_map hnodup hr hnmem hEq)
    have hrin : r ∈ (upsertUserVerified (markOtpUsed db rn.id now₁)
        (normalizeEmail email) now₁).otps := by
      rw [upsertUserVerified_otps, markOtpUsed_otps]
      have hfr : (fun x =>
          if x.id = rn.id then { x with used := true, updatedAt := some now₁ } else x) r = r := by
        simp [hid]
      exact hfr ▸ List.mem_map_of_mem _ hr
    cases hf2 : findActiveOtp (upsertUserVerified (markOtpUsed db rn.id now₁)
        (normalizeEmail email) now₁) (normalizeEmail email) (pyStrip oldCode) now₂ with
    | none =>
      rw [findActiveOtp_eq_none] at hf2
      exact absurd hrm (hf2 r hrin)
    | some r2 =>
      exact ⟨_, _, verify_otp_of_some _ _ _ _ r2 hf2⟩

/-- C4 witness: on `dbTwo`, after the newer code `222222` is used at time
20, the older code `111111` still verifies at time 30. -/
theorem older_code_still_usable_witness :
    ∃ db₂ resp₂, verify_otp (some dbTwoUsed) "a@b.com".data "111111".data 30
      = (some db₂, Except.ok resp₂) :=
  older_code_still_usable dbTwo "a@b.com".data "111111".data "222222".data 20 30
    dbTwoUsed respA
    { id := 0, email := "a@b.com".data, code := "111111".data,
      createdAt := 0, expiresAt := 300, used := false, updatedAt := none }
    (by decide) (by decide) (by decide) (by decide) (by decide)

/-- C5: a `RequestOTP` call with a random draw `rand ≤ 999999` produces a
code of exactly 6 decimal digits (leading zeros preserved), persists a new
OtpRecord with `used = false` and `expiresAt = now + 300` seconds, and
returns that code together with `expires_in_seconds = 300`. -/
theorem request_otp_spec (db : DB) (email : PyStr) (rand : Nat) (now : Int)
    (h : rand ≤ 999999) :
    (pyFormat06d rand).length = 6 ∧
    (∀ ch ∈ pyFormat06d rand, ch.isDigit = true) ∧
    ∃ db' : DB,
      request_otp (some db) email rand now =
        (some db', Except.ok { message := "OTP sent to your email".data,
                               dev_otp := pyFormat06d rand, expires_in_seconds := 300 }) ∧
      { id := db.nextId, email := normalizeEmail email, code := pyFormat06d rand,
        createdAt := now, expiresAt := now + 300, used := false,
        updatedAt := none } ∈ db'.otps := by
  refine ⟨pyFormat06d_length rand h, pyFormat06d_digits rand, ?_⟩
  simp only [request_otp, create_otp_document, fiveMinutes]
  cases hf : findUser db.users (normalizeEmail email) with
  | some u =>
    refine ⟨_, rfl, ?_⟩
    exact List.mem_append_right _ (List.mem_singleton_self _)
  | none =>
    refine ⟨_, rfl, ?_⟩
    exact List.mem_append_right _ (List.mem_singleton_self _)

/-- C5 witness: requesting with random draw 42 at time 0 stores the code
`000042` and answers with it and `expires_in_seconds = 300`. -/
theorem request_otp_spec_witness :
    (pyFormat06d 42).length = 6 ∧
    (∀ ch ∈ pyFormat06d 42, ch.isDigit = true) ∧
    ∃ db' : DB,
      request_otp (some emptyDB) "a@b.com".data 42 0 =
        (some db', Except.ok { message := "OTP sent to your email".data,
                               dev_otp := pyFormat06d 42, expires_in_seconds := 300 }) ∧
      { id := emptyDB.nextId, email := normalizeEmail "a@b.com".data,
        code := pyFormat06d 42, createdAt := 0, expiresAt := (0 : Int) + 300,
        used := false, updatedAt := none } ∈ db'.otps :=
  request_otp_spec emptyDB "a@b.com".data 42 0 (by decide)

/-- C7: both operations depend on the email only through its
lowercase-trimmed form and on the code only through its trimmed form, so
inputs with equal normal forms yield identical outcomes, and the outcome
equals the outcome on the normalized inputs themselves. -/
theorem normalized_inputs_equal_outcome (st : Option DB) (e1 e2 c1 c2 : PyStr)
    (rand : Nat) (now : Int)
    (he : normalizeEmail e1 = normalizeEmail e2) (hc : pyStrip c1 = pyStrip c2) :
    request_otp st e1 rand now = request_otp st e2 rand now ∧
    verify_otp st e1 c1 now = verify_otp st e2 c2 now ∧
    verify_otp st e1 c1 now = verify_otp st (normalizeEmail e1) (pyStrip c1) now := by
  have hreq : ∀ f1 f2 : PyStr, normalizeEmail f1 = normalizeEmail f2 →
      request_otp st f1 rand now = request_otp st f2 rand now := by
    intro f1 f2 hf
    cases st with
    | none => rfl
    | some db => simp only [request_otp, hf]
  have hver : ∀ f1 f2 g1 g2 : PyStr, normalizeEmail f1 = normalizeEmail f2 →
      pyStrip g1 = pyStrip g2 →
      verify_otp st f1 g1 now = verify_otp st f2 g2 now := by
    intro f1 f2 g1 g2 hf hg
    cases st with
    | none => rfl
    | some db => simp only [verify_otp, hf, hg]
  exact ⟨hreq e1 e2 he, hver e1 e2 c1 c2 he hc,
    hver e1 (normalizeEmail e1) c1 (pyStrip c1)
      (normalizeEmail_idem e1).symm (pyStrip_idem c1).symm⟩

/-- C7 witness: ` A@B.Com` and `a@b.com ` (and a whitespace-padded code)
give the same outcomes as each other and as the normalized inputs. -/
theorem normalized_inputs_equal_outcome_witness :
    request_otp (some dbOne) " A@B.Com".data 7 50
      = request_otp (some dbOne) "a@b.com ".data 7 50 ∧
    verify_otp (some dbOne) " A@B.Com".data " 123456 ".data 50
      = verify_otp (some dbOne) "a@b.com ".data "123456".data 50 ∧
    verify_otp (some dbOne) " A@B.Com".data " 123456 ".data 50
      = verify_otp (some dbOne) (normalizeEmail " A@B.Com".data)
          (pyStrip " 123456 ".data) 50 :=
  normalized_inputs_equal_outcome (some dbOne) " A@B.Com".data "a@b.com ".data
    " 123456 ".data "123456".data 7 50 (by decide) (by decide)

/-- The post-state of a `request` step: one OTP record appended. -/
theorem step_request_otps (db : DB) (e : PyStr) (rand : Nat) (t : Int) :
    (step db (Op.request e rand t)).otps = db.otps ++
      [{ id := db.nextId, email := normalizeEmail e, code := pyFormat06d rand,
         createdAt := t, expiresAt := t + 300, used := false, updatedAt := none }] := by
  simp only [step, request_otp, create_otp_document, fiveMinutes]
  cases hf : findUser db.users (normalizeEmail e) <;> rfl

/-- One step can never reset a used record: a record that is `used` keeps
its id and stays `used`. -/
theorem step_used_monotone (db : DB) (op : Op) (r : OtpRecord)
    (hr : r ∈ db.otps) (hu : r.used = true) :
    ∃ r' ∈ (step db op).otps, r'.id = r.id ∧ r'.used = true := by
  cases op with
  | request e rand t =>
    refine ⟨r, ?_, rfl, hu⟩
    rw [step_request_otps]
    exact List.mem_append_left _ hr
  | verify e c t =>
    cases hf : findActiveOtp db (normalizeEmail e) (pyStrip c) t with
    | none =>
      have hstep : step db (Op.verify e c t) = db := by
        simp only [step, verify_otp_of_none _ _ _ _ hf]
      rw [hstep]
      exact ⟨r, hr, rfl, hu⟩
    | some x =>
      have hstep : (step db (Op.verify e c t)).otps = db.otps.map (fun y =>
          if y.id = x.id then { y with used := true, updatedAt := some t } else y) := by
        simp only [step, verify_otp_of_some _ _ _ _ x hf]
        rw [upsertUserVerified_otps, markOtpUsed_otps]
      refine ⟨(fun y =>
        if y.id = x.id then { y with used := true, updatedAt := some t } else y) r,
        ?_, ?_, ?_⟩
      · rw [hstep]
        exact List.mem_map_of_mem _ hr
      · by_cases hidr : r.id = x.id <;> simp [hidr]
      · by_cases hidr : r.id = x.id <;> simp [hidr, hu]

/-- Any record of a post-state whose id was absent before the step is a
freshly created record, and is unused. -/
theorem step_new_record_unused (db : DB) (op : Op) (r' : OtpRecord)
    (hr' : r' ∈ (step db op).otps) (hfresh : ∀ r ∈ db.otps, r.id ≠ r'.id) :
    r'.used = false := by
  cases op with
  | request e rand t =>
    rw [step_request_otps] at hr'
    rcases List.mem_append.mp hr' with hin | hin
    · exact absurd rfl (hfresh r' hin)
    · rw [List.mem_singleton.mp hin]
  | verify e c t =>
    cases hf : findActiveOtp db (normalizeEmail e) (pyStrip c) t with
    | none =>
      have hstep : step db (Op.verify e c t) = db := by
        simp only [step, verify_otp_of_none _ _ _ _ hf]
      rw [hstep] at hr'
      exact absurd rfl (hfresh r' hr')
    | some x =>
      have hstep : (step db (Op.verify e c t)).otps = db.otps.map (fun y =>
          if y.id = x.id then { y with used := true, updatedAt := some t } else y) := by
        simp only [step, verify_otp_of_some _ _ _ _ x hf]
        rw [upsertUserVerified_otps, markOtpUsed_otps]
      rw [hstep] at hr'
      obtain ⟨y, hy, hyeq⟩ := List.mem_map.mp hr'
      have hyid : y.id = r'.id := by
        rw [← hyeq]
        by_cases hcase : y.id = x.id <;> simp [hcase]
      exact absurd hyid (hfresh y hy)

/-- Used records survive whole runs, keeping their id and `used` flag. -/
theorem run_used_monotone : ∀ (ops : List Op) (db : DB) (r : OtpRecord),
    r ∈ db.otps → r.used = true →
    ∃ r' ∈ (run db ops).otps, r'.id = r.id ∧ r'.used = true := by
  intro ops
  induction ops with
  | nil => exact fun db r hr hu => ⟨r, hr, rfl, hu⟩
  | cons op rest ih =>
    intro db r hr hu
    obtain ⟨r', hr', hid, hu'⟩ := step_used_monotone db op r hr hu
    obtain ⟨r'', hr'', hid2, hu2⟩ := ih (step db op) r' hr' hu'
    exact ⟨r'', hr'', by rw [hid2, hid], hu2⟩

/-- C8: in every sequence of operations, the `used` flag of an OtpRecord
moves from `false` to `true` at most once: once a record is used it stays
used (same id, `used = true`) after any run, and every record created by
a step (id not present before) starts with `used = false`. -/
theorem used_flag_monotone (db : DB) (ops : List Op) (op : Op) :
    (∀ r ∈ db.otps, r.used = true →
      ∃ r' ∈ (run db ops).otps, r'.id = r.id ∧ r'.used = true) ∧
    (∀ r' ∈ (step db op).otps, (∀ r ∈ db.otps, r.id ≠ r'.id) → r'.used = false) :=
  ⟨fun r hr hu => run_used_monotone ops db r hr hu,
   fun r' hr' hfr => step_new_record_unused db op r' hr' hfr⟩

/-- C8 witness: the used record of `dbOneUsed` is still present and used
after a further request step. -/
theorem used_flag_monotone_witness :
    ∃ r' ∈ (run dbOneUsed [Op.request "a@b.com".data 42 400]).otps,
      r'.id = 0 ∧ r'.used = true :=
  (used_flag_monotone dbOneUsed [Op.request "a@b.com".data 42 400]
      (Op.verify "a@b.com".data "123456".data 10)).1
    { id := 0, email := "a@b.com".data, code := "123456".data,
      createdAt := 0, expiresAt := 300, used := true, updatedAt := some 10 }
    (by decide) (by decide)

end OtpAuth
